import Mathlib

/-!
Shallow embedding of the JetLag stage orchestrator (`JetLagStage`, file
`src/unnamed/part_001`) and the `Goodie` actor (`src/unnamed/part_002`).

State that `JetLagStage` itself owns (overlay flag, builder slots, score,
music flags, the world event queues it drains) is threaded explicitly.
Calls into external collaborators — the renderer, the physics engine, the
sound handle, the sequencer (`JetLagManager`), the device storage, and the
user-supplied overlay-builder callbacks — are recorded as an ordered trace
of `Event` values.  Builder callbacks are modelled as abstract external
effects: the trace records that a builder was invoked on a freshly
constructed overlay; the callback's own actions on the overlay scene are
outside the stage state.
TypeScript numbers are modelled as exact rationals (`Rat`); every
comparison in the embedded code is a sign test or a sentinel-equality
test on small values, so no floating-point-specific behaviour is involved.
-/

namespace JetLag

/-- The four transient-overlay builder slots of `JetLagStage`
(`welcomeSceneBuilder`, `pauseSceneBuilder`, `winSceneBuilder`,
`loseSceneBuilder`). -/
inductive SceneKind
  | welcome
  | pause
  | win
  | lose
deriving DecidableEq

/-- Where a gesture was delivered: the transient overlay, the HUD,
or the world. -/
inductive GTarget
  | overlay
  | hud
  | world
deriving DecidableEq

/-- Which gesture method was delivered. -/
inductive GKind
  | tap
  | panStart
  | panMove
  | panStop
  | touchDown
  | touchUp
  | swipe
deriving DecidableEq

/-- Observable effects of the stage code, in program order.  Each
constructor corresponds to one call into a collaborator in
`src/unnamed/part_001`. -/
inductive Event
  /-- `new OverlayScene(this.config, this.device)` assigned to `this.overlay` -/
  | newOverlay
  /-- a builder callback invoked with `new OverlayApi(this.overlay, ...)` -/
  | invokeBuilder (k : SceneKind)
  /-- `this.overlay.render(renderer, elapsedTime)` -/
  | renderOverlay
  /-- `renderer.setFrameColor(this.backgroundColor)` -/
  | setFrameColor (c : Nat)
  /-- `this.music.play()` -/
  | musicPlay
  /-- `this.music.stop()` -/
  | musicStop
  /-- entry into `this.endLevel(win)` -/
  | endLevelCall (win : Bool)
  /-- `this.manager.advanceLevel()` -/
  | advanceLevel
  /-- `this.manager.repeatLevel()` -/
  | repeatLevel
  /-- `this.world.handleTilt(...)` -/
  | handleTilt
  /-- `this.world.advanceWorld(dt, velocityIterations, positionIterations)` -/
  | advanceWorld (dt : Rat) (velocityIterations positionIterations : Nat)
  /-- execution of one queued one-time event callback (identified by id) -/
  | runOneTime (id : Nat)
  /-- execution of one queued repeat event callback (identified by id) -/
  | runRepeat (id : Nat)
  /-- `this.world.adjustCamera()` -/
  | adjustCamera
  /-- `this.background.render(...)` -/
  | renderBackground
  /-- `this.world.render(...)` -/
  | renderWorld
  /-- `this.foreground.render(...)` -/
  | renderForeground
  /-- `this.hud.render(...)` -/
  | renderHud
  /-- `this.device.getStorage().clearLevelFacts()` -/
  | clearLevelFacts
  /-- `new WorldScene(...)` in `onScreenChange` -/
  | newWorldScene
  /-- `new OverlayScene(...)` assigned to `this.hud` in `onScreenChange` -/
  | newHudScene
  /-- `new ParallaxScene(...)` assigned to `this.background` -/
  | newBackgroundScene
  /-- `new ParallaxScene(...)` assigned to `this.foreground` -/
  | newForegroundScene
  /-- a gesture delivered to a scene: `target.kind(screenX, screenY)` -/
  | gesture (t : GTarget) (k : GKind)
deriving DecidableEq

/-- The per-level mutable fields of the `Score` object that
`JetLagStage.render` and `onScreenChange` touch: four goodie counters and
three timers.  A timer holding the sentinel `-100` is disabled. -/
structure Score where
  goodieCount1 : Rat := 0
  goodieCount2 : Rat := 0
  goodieCount3 : Rat := 0
  goodieCount4 : Rat := 0
  loseCountDownRemaining : Rat := -100
  winCountRemaining : Rat := -100
  stopWatchProgress : Rat := -100
deriving DecidableEq

/-- Modelled from the spec: the `Score` class (`misc/Score`) is not among
the provided sources; per the spec its `reset()` operation restores the
default/sentinel values (goodie counters to their defaults, all three
timers to the sentinel `-100`, in particular `winCountRemaining == -100`). -/
def Score.reset (_s : Score) : Score := {}

/-- The fields of `WorldScene` that `JetLagStage` reads and writes
directly: the two deferred-callback queues (`oneTimeEvents`,
`repeatEvents`), modelled as lists of callback identifiers in insertion
order.  The rest of `WorldScene` (physics, camera, actors) is external and
appears only as trace events. -/
structure WorldScene where
  oneTimeEvents : List Nat := []
  repeatEvents : List Nat := []
deriving DecidableEq

/-- The mutable fields of `JetLagStage`.  Nullable object references
(`overlay`, `music`, `projectilePool`) are modelled as presence flags;
builder slots are `true` when a callback is pending (non-null). -/
structure Stage where
  world : WorldScene := {}
  overlay : Bool := false
  gestureHudFirst : Bool := true
  backgroundColor : Nat := 0xFFFFFF
  welcomeSceneBuilder : Bool := false
  winSceneBuilder : Bool := false
  loseSceneBuilder : Bool := false
  pauseSceneBuilder : Bool := false
  score : Score := {}
  music : Bool := false
  musicPlaying : Bool := false
  projectilePool : Bool := false
deriving DecidableEq

/-- `JetLagStage.playMusic` (lines 365-370). -/
def playMusic (s : Stage) : Stage × List Event :=
  if !s.musicPlaying && s.music then
    ({ s with musicPlaying := true }, [Event.musicPlay])
  else (s, [])

/-- `JetLagStage.pauseMusic` (lines 373-378). -/
def pauseMusic (s : Stage) : Stage × List Event :=
  if s.musicPlaying then
    ({ s with musicPlaying := false }, [Event.musicStop])
  else (s, [])

/-- `JetLagStage.stopMusic` (lines 381-387). -/
def stopMusic (s : Stage) : Stage × List Event :=
  if s.musicPlaying then
    ({ s with musicPlaying := false }, [Event.musicStop])
  else (s, [])

/-- `JetLagStage.endLevel` (lines 341-362).  The head event records the
invocation itself, so occurrences of `endLevel` inside `render` can be
counted in the trace. -/
def endLevel (s : Stage) (win : Bool) : Stage × List Event :=
  if win then
    if s.winSceneBuilder then
      ({ s with overlay := true, winSceneBuilder := false },
       [Event.endLevelCall true, Event.newOverlay,
        Event.invokeBuilder SceneKind.win])
    else
      (s, [Event.endLevelCall true, Event.advanceLevel])
  else
    if s.loseSceneBuilder then
      ({ s with overlay := true, loseSceneBuilder := false },
       [Event.endLevelCall false, Event.newOverlay,
        Event.invokeBuilder SceneKind.lose])
    else
      (s, [Event.endLevelCall false, Event.repeatLevel])

/-- `JetLagStage.clearOverlayScene` (lines 222-224). -/
def clearOverlayScene (s : Stage) : Stage :=
  { s with overlay := false }

/-- Lines 234-238 of `render`: consume a pending welcome-scene builder. -/
def consumeWelcome (s : Stage) : Stage × List Event :=
  if s.welcomeSceneBuilder then
    ({ s with overlay := true, welcomeSceneBuilder := false },
     [Event.newOverlay, Event.invokeBuilder SceneKind.welcome])
  else (s, [])

/-- Lines 239-243 of `render`: consume a pending pause-scene builder. -/
def consumePause (s : Stage) : Stage × List Event :=
  if s.pauseSceneBuilder then
    ({ s with overlay := true, pauseSceneBuilder := false },
     [Event.newOverlay, Event.invokeBuilder SceneKind.pause])
  else (s, [])

/-- Lines 256-261 of `render`: the lose-countdown check. -/
def checkLoseTimer (s : Stage) (elapsedTime : Rat) : Stage × List Event :=
  if s.score.loseCountDownRemaining ≠ -100 then
    let v := s.score.loseCountDownRemaining - elapsedTime / 1000
    let s1 : Stage := { s with score := { s.score with loseCountDownRemaining := v } }
    if v < 0 then endLevel s1 false else (s1, [])
  else (s, [])

/-- Lines 262-268 of `render`: the win-countdown check. -/
def checkWinTimer (s : Stage) (elapsedTime : Rat) : Stage × List Event :=
  if s.score.winCountRemaining ≠ -100 then
    let v := s.score.winCountRemaining - elapsedTime / 1000
    let s1 : Stage := { s with score := { s.score with winCountRemaining := v } }
    if v < 0 then endLevel s1 true else (s1, [])
  else (s, [])

/-- Lines 269-271 of `render`: the stopwatch update. -/
def checkStopwatch (s : Stage) (elapsedTime : Rat) : Stage :=
  if s.score.stopWatchProgress ≠ -100 then
    { s with score :=
        { s.score with stopWatchProgress := s.score.stopWatchProgress + elapsedTime / 1000 } }
  else s

/-- Lines 284-291 of `render`: drain and clear the one-time event queue,
then run the repeat event queue without clearing it. -/
def runQueues (s : Stage) : Stage × List Event :=
  ({ s with world := { s.world with oneTimeEvents := [] } },
   s.world.oneTimeEvents.map Event.runOneTime
     ++ s.world.repeatEvents.map Event.runRepeat)

/-- Lines 249-304 of `render`: the world-update path taken when no overlay
is showing after the builder checks. -/
def worldStep (s : Stage) (elapsedTime : Rat) : Stage × List Event :=
  let m := playMusic s
  let l := checkLoseTimer m.1 elapsedTime
  let w := checkWinTimer l.1 elapsedTime
  let s4 := checkStopwatch w.1 elapsedTime
  let q := runQueues s4
  (q.1,
   Event.setFrameColor s.backgroundColor :: m.2 ++ l.2 ++ w.2
     ++ [Event.handleTilt, Event.advanceWorld (1 / 45) 8 3]
     ++ q.2
     ++ [Event.adjustCamera, Event.renderBackground, Event.renderWorld,
         Event.renderForeground, Event.renderHud])

/-- `JetLagStage.render` (lines 231-305). -/
def render (s : Stage) (elapsedTime : Rat) : Stage × List Event :=
  let wq := consumeWelcome s
  let p := consumePause wq.1
  if p.1.overlay then
    (p.1, wq.2 ++ p.2 ++ [Event.renderOverlay])
  else
    let st := worldStep p.1 elapsedTime
    (st.1, wq.2 ++ p.2 ++ st.2)

/-- `JetLagStage.tap` (lines 138-163).  `hudConsumed` / `worldConsumed`
are the boolean results the HUD and world gesture handlers would return;
the trace records which handlers are actually invoked, in order.
(The debug-mode logging on lines 145-150 touches only the loggers and
camera coordinate mapping, not the gesture handlers, and is omitted.) -/
def tap (s : Stage) (hudConsumed worldConsumed : Bool) : List Event :=
  if s.overlay then [Event.gesture GTarget.overlay GKind.tap]
  else if s.gestureHudFirst then
    if hudConsumed then [Event.gesture GTarget.hud GKind.tap]
    else [Event.gesture GTarget.hud GKind.tap, Event.gesture GTarget.world GKind.tap]
  else
    if worldConsumed then [Event.gesture GTarget.world GKind.tap]
    else [Event.gesture GTarget.world GKind.tap, Event.gesture GTarget.hud GKind.tap]

/-- `JetLagStage.panStart` (lines 166-172). -/
def panStart (s : Stage) : List Event :=
  if s.overlay then [Event.gesture GTarget.overlay GKind.panStart]
  else [Event.gesture GTarget.hud GKind.panStart]

/-- `JetLagStage.panMove` (lines 177-183). -/
def panMove (s : Stage) : List Event :=
  if s.overlay then [Event.gesture GTarget.overlay GKind.panMove]
  else [Event.gesture GTarget.hud GKind.panMove]

/-- `JetLagStage.panStop` (lines 188-194). -/
def panStop (s : Stage) : List Event :=
  if s.overlay then [Event.gesture GTarget.overlay GKind.panStop]
  else [Event.gesture GTarget.hud GKind.panStop]

/-- `JetLagStage.touchDown` (lines 199-205). -/
def touchDown (s : Stage) : List Event :=
  if s.overlay then [Event.gesture GTarget.overlay GKind.touchDown]
  else [Event.gesture GTarget.hud GKind.touchDown]

/-- `JetLagStage.touchUp` (lines 208-214). -/
def touchUp (s : Stage) : List Event :=
  if s.overlay then [Event.gesture GTarget.overlay GKind.touchUp]
  else [Event.gesture GTarget.hud GKind.touchUp]

/-- `JetLagStage.swipe` (lines 217-219): unconditionally delivered to the
HUD, overlay or not. -/
def swipe (_s : Stage) : List Event :=
  [Event.gesture GTarget.hud GKind.swipe]

/-- `JetLagStage.onScreenChange` (lines 311-333). -/
def onScreenChange (s : Stage) : Stage × List Event :=
  let m := stopMusic s
  ({ m.1 with
      music := false,
      projectilePool := false,
      score := Score.reset m.1.score,
      gestureHudFirst := true,
      backgroundColor := 0xFFFFFF,
      welcomeSceneBuilder := false,
      winSceneBuilder := false,
      loseSceneBuilder := false,
      pauseSceneBuilder := false,
      world := {} },
   m.2 ++ [Event.clearLevelFacts, Event.newWorldScene, Event.newHudScene,
           Event.newBackgroundScene, Event.newForegroundScene])

/-- The `Goodie` actor (`src/unnamed/part_002`): the nullable
`onHeroCollect` callback is modelled as an `Option`, the `score` delta
array as a list of rationals; the `WorldActor` fields passed through the
constructor are carried along. -/
structure Goodie where
  onHeroCollect : Option Unit := none
  score : List Rat := [1, 0, 0, 0]
  imgName : String := ""
  width : Rat := 0
  height : Rat := 0
deriving DecidableEq

/-- The `Goodie` constructor (lines 36-39): initialisers give
`onHeroCollect = null` and `score = [1, 0, 0, 0]`. -/
def mkGoodie (width height : Rat) (imgName : String) : Goodie :=
  { onHeroCollect := none, score := [1, 0, 0, 0],
    imgName := imgName, width := width, height := height }

/-- `Goodie.setScore` (lines 69-71). -/
def Goodie.setScore (g : Goodie) (v1 v2 v3 v4 : Rat) : Goodie :=
  { g with score := [v1, v2, v3, v4] }

/-- Events that belong to the world-update path of `render`: the frame
colour, tilt, physics step, queue execution, camera adjustment and the
four world-path draws. -/
def Event.isWorldActivity : Event → Bool
  | Event.setFrameColor _ => true
  | Event.handleTilt => true
  | Event.advanceWorld _ _ _ => true
  | Event.runOneTime _ => true
  | Event.runRepeat _ => true
  | Event.adjustCamera => true
  | Event.renderBackground => true
  | Event.renderWorld => true
  | Event.renderForeground => true
  | Event.renderHud => true
  | _ => false

/-- Events that may only appear from the queue-execution point of the
world path onward: queue callbacks, camera adjustment, and draws. -/
def Event.isQueueOrLater : Event → Bool
  | Event.runOneTime _ => true
  | Event.runRepeat _ => true
  | Event.adjustCamera => true
  | Event.renderBackground => true
  | Event.renderWorld => true
  | Event.renderForeground => true
  | Event.renderHud => true
  | _ => false

/-- A stage whose lose countdown is active at half a second, with a
lose-scene builder pending: one 600ms frame drives the countdown below
zero and `endLevel(false)` installs the lose overlay mid-render. -/
def loseFiresStage : Stage :=
  { score := { loseCountDownRemaining := 1 / 2 }, loseSceneBuilder := true }

/-- A stage with both a welcome-scene builder and a pause-scene builder
pending at the same time. -/
def bothBuildersStage : Stage :=
  { welcomeSceneBuilder := true, pauseSceneBuilder := true }

/-- A stage currently showing a transient overlay. -/
def overlayStage : Stage := { overlay := true }

/-- A freshly reset stage: no overlay, HUD-first gesture routing. -/
def plainStage : Stage := {}

/-- A stage whose lose countdown is active at half a second, with no
lose-scene builder. -/
def countdownStage : Stage :=
  { score := { loseCountDownRemaining := 1 / 2 } }

/-- A stage with one pending one-time event and one repeat event. -/
def queueStage : Stage :=
  { world := { oneTimeEvents := [7], repeatEvents := [3] } }

/-! Helper lemmas: how `render` reduces on each path, and which fields and
events each piece of the world-update step can touch. -/

lemma render_worldPath (s : Stage) (e : Rat)
    (hw : s.welcomeSceneBuilder = false) (hp : s.pauseSceneBuilder = false)
    (ho : s.overlay = false) :
    render s e = worldStep s e := by
  simp [render, consumeWelcome, consumePause, hw, hp, ho]

lemma render_overlayPath (s : Stage) (e : Rat)
    (hw : s.welcomeSceneBuilder = false) (hp : s.pauseSceneBuilder = false)
    (ho : s.overlay = true) :
    render s e = (s, [Event.renderOverlay]) := by
  simp [render, consumeWelcome, consumePause, hw, hp, ho]

lemma playMusic_world (s : Stage) : (playMusic s).1.world = s.world := by
  simp only [playMusic]; split_ifs <;> rfl

lemma checkLoseTimer_world (s : Stage) (e : Rat) :
    (checkLoseTimer s e).1.world = s.world := by
  simp only [checkLoseTimer, endLevel]; split_ifs <;> rfl

lemma checkWinTimer_world (s : Stage) (e : Rat) :
    (checkWinTimer s e).1.world = s.world := by
  simp only [checkWinTimer, endLevel]; split_ifs <;> rfl

lemma checkStopwatch_world (s : Stage) (e : Rat) :
    (checkStopwatch s e).world = s.world := by
  simp only [checkStopwatch]; split_ifs <;> rfl

lemma playMusic_flag (s : Stage) :
    ∀ x ∈ (playMusic s).2, x.isQueueOrLater = false := by
  simp only [playMusic]; split_ifs <;> simp [Event.isQueueOrLater]

lemma checkLoseTimer_flag (s : Stage) (e : Rat) :
    ∀ x ∈ (checkLoseTimer s e).2, x.isQueueOrLater = false := by
  simp only [checkLoseTimer, endLevel]; split_ifs <;> simp [Event.isQueueOrLater]

lemma checkWinTimer_flag (s : Stage) (e : Rat) :
    ∀ x ∈ (checkWinTimer s e).2, x.isQueueOrLater = false := by
  simp only [checkWinTimer, endLevel]; split_ifs <;> simp [Event.isQueueOrLater]

lemma count_runOneTime_map (l : List Nat) (i : Nat) :
    (l.map Event.runOneTime).count (Event.runOneTime i) = l.count i := by
  induction l with
  | nil => rfl
  | cons a t ih => simp [List.count_cons, ih]

lemma count_runOneTime_map_runRepeat (l : List Nat) (i : Nat) :
    (l.map Event.runRepeat).count (Event.runOneTime i) = 0 := by
  simp [List.count_eq_zero]

lemma count_runOneTime_playMusic (s : Stage) (i : Nat) :
    (playMusic s).2.count (Event.runOneTime i) = 0 := by
  simp only [playMusic]; split_ifs <;> rfl

lemma count_runOneTime_checkLoseTimer (s : Stage) (e : Rat) (i : Nat) :
    (checkLoseTimer s e).2.count (Event.runOneTime i) = 0 := by
  simp only [checkLoseTimer, endLevel]; split_ifs <;> rfl

lemma count_runOneTime_checkWinTimer (s : Stage) (e : Rat) (i : Nat) :
    (checkWinTimer s e).2.count (Event.runOneTime i) = 0 := by
  simp only [checkWinTimer, endLevel]; split_ifs <;> rfl

lemma endLevel_welcome (s : Stage) (w : Bool) :
    (endLevel s w).1.welcomeSceneBuilder = s.welcomeSceneBuilder := by
  simp only [endLevel]; split_ifs <;> rfl

lemma endLevel_pause (s : Stage) (w : Bool) :
    (endLevel s w).1.pauseSceneBuilder = s.pauseSceneBuilder := by
  simp only [endLevel]; split_ifs <;> rfl

lemma playMusic_welcome (s : Stage) :
    (playMusic s).1.welcomeSceneBuilder = s.welcomeSceneBuilder := by
  simp only [playMusic]; split_ifs <;> rfl

lemma playMusic_pause (s : Stage) :
    (playMusic s).1.pauseSceneBuilder = s.pauseSceneBuilder := by
  simp only [playMusic]; split_ifs <;> rfl

lemma checkLoseTimer_welcome (s : Stage) (e : Rat) :
    (checkLoseTimer s e).1.welcomeSceneBuilder = s.welcomeSceneBuilder := by
  simp only [checkLoseTimer]; split_ifs <;> simp [endLevel_welcome]

lemma checkLoseTimer_pause (s : Stage) (e : Rat) :
    (checkLoseTimer s e).1.pauseSceneBuilder = s.pauseSceneBuilder := by
  simp only [checkLoseTimer]; split_ifs <;> simp [endLevel_pause]

lemma checkWinTimer_welcome (s : Stage) (e : Rat) :
    (checkWinTimer s e).1.welcomeSceneBuilder = s.welcomeSceneBuilder := by
  simp only [checkWinTimer]; split_ifs <;> simp [endLevel_welcome]

lemma checkWinTimer_pause (s : Stage) (e : Rat) :
    (checkWinTimer s e).1.pauseSceneBuilder = s.pauseSceneBuilder := by
  simp only [checkWinTimer]; split_ifs <;> simp [endLevel_pause]

lemma checkStopwatch_welcome (s : Stage) (e : Rat) :
    (checkStopwatch s e).welcomeSceneBuilder = s.welcomeSceneBuilder := by
  simp only [checkStopwatch]; split_ifs <;> rfl

lemma checkStopwatch_pause (s : Stage) (e : Rat) :
    (checkStopwatch s e).pauseSceneBuilder = s.pauseSceneBuilder := by
  simp only [checkStopwatch]; split_ifs <;> rfl

lemma worldStep_welcome (s : Stage) (e : Rat) :
    (worldStep s e).1.welcomeSceneBuilder = s.welcomeSceneBuilder := by
  simp only [worldStep, runQueues]
  simp [checkStopwatch_welcome, checkWinTimer_welcome, checkLoseTimer_welcome,
    playMusic_welcome]

lemma worldStep_pause (s : Stage) (e : Rat) :
    (worldStep s e).1.pauseSceneBuilder = s.pauseSceneBuilder := by
  simp only [worldStep, runQueues]
  simp [checkStopwatch_pause, checkWinTimer_pause, checkLoseTimer_pause,
    playMusic_pause]

lemma worldStep_world (s : Stage) (e : Rat) :
    (worldStep s e).1.world =
      { oneTimeEvents := [], repeatEvents := s.world.repeatEvents } := by
  simp only [worldStep, runQueues]
  simp [checkStopwatch_world, checkWinTimer_world, checkLoseTimer_world,
    playMusic_world]

lemma count_runOneTime_worldStep (s : Stage) (e : Rat) (i : Nat) :
    (worldStep s e).2.count (Event.runOneTime i) = s.world.oneTimeEvents.count i := by
  simp only [worldStep, runQueues]
  simp [List.count_append, List.count_cons, count_runOneTime_map,
    count_runOneTime_map_runRepeat, count_runOneTime_playMusic,
    count_runOneTime_checkLoseTimer, count_runOneTime_checkWinTimer,
    checkStopwatch_world, checkWinTimer_world, checkLoseTimer_world, playMusic_world]

lemma count_advanceWorld_playMusic (s : Stage) (dt : Rat) (vi pi : Nat) :
    (playMusic s).2.count (Event.advanceWorld dt vi pi) = 0 := by
  simp only [playMusic]; split_ifs <;> rfl

lemma count_advanceWorld_checkLoseTimer (s : Stage) (e dt : Rat) (vi pi : Nat) :
    (checkLoseTimer s e).2.count (Event.advanceWorld dt vi pi) = 0 := by
  simp only [checkLoseTimer, endLevel]; split_ifs <;> rfl

lemma count_advanceWorld_checkWinTimer (s : Stage) (e dt : Rat) (vi pi : Nat) :
    (checkWinTimer s e).2.count (Event.advanceWorld dt vi pi) = 0 := by
  simp only [checkWinTimer, endLevel]; split_ifs <;> rfl

lemma count_advanceWorld_map_runOneTime (l : List Nat) (dt : Rat) (vi pi : Nat) :
    (l.map Event.runOneTime).count (Event.advanceWorld dt vi pi) = 0 := by
  simp [List.count_eq_zero]

lemma count_advanceWorld_map_runRepeat (l : List Nat) (dt : Rat) (vi pi : Nat) :
    (l.map Event.runRepeat).count (Event.advanceWorld dt vi pi) = 0 := by
  simp [List.count_eq_zero]

lemma worldStep_shape (s : Stage) (e : Rat) :
    ∃ A, (worldStep s e).2 =
        A ++ (s.world.oneTimeEvents.map Event.runOneTime
          ++ (s.world.repeatEvents.map Event.runRepeat
          ++ [Event.adjustCamera, Event.renderBackground, Event.renderWorld,
              Event.renderForeground, Event.renderHud])) ∧
      ∀ x ∈ A, x.isQueueOrLater = false := by
  refine ⟨Event.setFrameColor s.backgroundColor ::
      ((playMusic s).2 ++ ((checkLoseTimer (playMusic s).1 e).2 ++
        ((checkWinTimer (checkLoseTimer (playMusic s).1 e).1 e).2 ++
         [Event.handleTilt, Event.advanceWorld (1 / 45) 8 3]))), ?_, ?_⟩
  · simp only [worldStep, runQueues]
    simp [checkStopwatch_world, checkWinTimer_world, checkLoseTimer_world,
      playMusic_world, List.append_assoc]
  · intro x hx
    simp only [List.mem_cons, List.mem_append] at hx
    rcases hx with rfl | hx | hx | hx | hx
    · rfl
    · exact playMusic_flag s x hx
    · exact checkLoseTimer_flag _ e x hx
    · exact checkWinTimer_flag _ e x hx
    · rcases hx with rfl | hx
      · rfl
      · simp only [List.mem_cons, List.not_mem_nil, or_false] at hx
        subst hx; rfl

lemma endLevel_score (s : Stage) (w : Bool) :
    (endLevel s w).1.score = s.score := by
  simp only [endLevel]; split_ifs <;> rfl

lemma playMusic_score (s : Stage) : (playMusic s).1.score = s.score := by
  simp only [playMusic]; split_ifs <;> rfl

lemma checkLoseTimer_score_lose (s : Stage) (e : Rat) :
    (checkLoseTimer s e).1.score.loseCountDownRemaining =
      if s.score.loseCountDownRemaining = -100 then -100
      else s.score.loseCountDownRemaining - e / 1000 := by
  simp only [checkLoseTimer]
  split_ifs <;> simp_all [endLevel_score]

lemma checkLoseTimer_score_win (s : Stage) (e : Rat) :
    (checkLoseTimer s e).1.score.winCountRemaining = s.score.winCountRemaining := by
  simp only [checkLoseTimer]
  split_ifs <;> simp [endLevel_score]

lemma checkLoseTimer_score_stop (s : Stage) (e : Rat) :
    (checkLoseTimer s e).1.score.stopWatchProgress = s.score.stopWatchProgress := by
  simp only [checkLoseTimer]
  split_ifs <;> simp [endLevel_score]

lemma checkWinTimer_score_lose (s : Stage) (e : Rat) :
    (checkWinTimer s e).1.score.loseCountDownRemaining =
      s.score.loseCountDownRemaining := by
  simp only [checkWinTimer]
  split_ifs <;> simp [endLevel_score]

lemma checkWinTimer_score_win (s : Stage) (e : Rat) :
    (checkWinTimer s e).1.score.winCountRemaining =
      if s.score.winCountRemaining = -100 then -100
      else s.score.winCountRemaining - e / 1000 := by
  simp only [checkWinTimer]
  split_ifs <;> simp_all [endLevel_score]

lemma checkWinTimer_score_stop (s : Stage) (e : Rat) :
    (checkWinTimer s e).1.score.stopWatchProgress = s.score.stopWatchProgress := by
  simp only [checkWinTimer]
  split_ifs <;> simp [endLevel_score]

lemma checkStopwatch_score_lose (s : Stage) (e : Rat) :
    (checkStopwatch s e).score.loseCountDownRemaining =
      s.score.loseCountDownRemaining := by
  simp only [checkStopwatch]; split_ifs <;> rfl

lemma checkStopwatch_score_win (s : Stage) (e : Rat) :
    (checkStopwatch s e).score.winCountRemaining = s.score.winCountRemaining := by
  simp only [checkStopwatch]; split_ifs <;> rfl

lemma checkStopwatch_score_stop (s : Stage) (e : Rat) :
    (checkStopwatch s e).score.stopWatchProgress =
      if s.score.stopWatchProgress = -100 then -100
      else s.score.stopWatchProgress + e / 1000 := by
  simp only [checkStopwatch]
  split_ifs <;> simp_all

lemma worldStep_score_lose (s : Stage) (e : Rat) :
    (worldStep s e).1.score.loseCountDownRemaining =
      if s.score.loseCountDownRemaining = -100 then -100
      else s.score.loseCountDownRemaining - e / 1000 := by
  simp only [worldStep, runQueues]
  simp [checkStopwatch_score_lose, checkWinTimer_score_lose,
    checkLoseTimer_score_lose, playMusic_score]

lemma worldStep_score_win (s : Stage) (e : Rat) :
    (worldStep s e).1.score.winCountRemaining =
      if s.score.winCountRemaining = -100 then -100
      else s.score.winCountRemaining - e / 1000 := by
  simp only [worldStep, runQueues]
  simp [checkStopwatch_score_win, checkWinTimer_score_win,
    checkLoseTimer_score_win, playMusic_score]

lemma worldStep_score_stop (s : Stage) (e : Rat) :
    (worldStep s e).1.score.stopWatchProgress =
      if s.score.stopWatchProgress = -100 then -100
      else s.score.stopWatchProgress + e / 1000 := by
  simp only [worldStep, runQueues]
  simp [checkStopwatch_score_stop, checkWinTimer_score_stop,
    checkLoseTimer_score_stop, playMusic_score]

lemma count_endLevelCall_playMusic (s : Stage) (b : Bool) :
    (playMusic s).2.count (Event.endLevelCall b) = 0 := by
  simp only [playMusic]; split_ifs <;> rfl

lemma count_endLevelCall_map_runOneTime (l : List Nat) (b : Bool) :
    (l.map Event.runOneTime).count (Event.endLevelCall b) = 0 := by
  simp [List.count_eq_zero]

lemma count_endLevelCall_map_runRepeat (l : List Nat) (b : Bool) :
    (l.map Event.runRepeat).count (Event.endLevelCall b) = 0 := by
  simp [List.count_eq_zero]

lemma count_endLevelCallFalse_checkLoseTimer (s : Stage) (e : Rat) :
    (checkLoseTimer s e).2.count (Event.endLevelCall false) =
      if s.score.loseCountDownRemaining ≠ -100 ∧
          s.score.loseCountDownRemaining - e / 1000 < 0
      then 1 else 0 := by
  simp only [checkLoseTimer, endLevel]
  split_ifs <;> simp_all [List.count_cons]

lemma count_endLevelCallTrue_checkLoseTimer (s : Stage) (e : Rat) :
    (checkLoseTimer s e).2.count (Event.endLevelCall true) = 0 := by
  simp only [checkLoseTimer, endLevel]; split_ifs <;> simp_all

lemma count_endLevelCallFalse_checkWinTimer (s : Stage) (e : Rat) :
    (checkWinTimer s e).2.count (Event.endLevelCall false) = 0 := by
  simp only [checkWinTimer, endLevel]; split_ifs <;> simp_all

lemma count_endLevelCallTrue_checkWinTimer (s : Stage) (e : Rat) :
    (checkWinTimer s e).2.count (Event.endLevelCall true) =
      if s.score.winCountRemaining ≠ -100 ∧
          s.score.winCountRemaining - e / 1000 < 0
      then 1 else 0 := by
  simp only [checkWinTimer, endLevel]
  split_ifs <;> simp_all [List.count_cons]

lemma count_endLevelCallFalse_worldStep (s : Stage) (e : Rat) :
    (worldStep s e).2.count (Event.endLevelCall false) =
      if s.score.loseCountDownRemaining ≠ -100 ∧
          s.score.loseCountDownRemaining - e / 1000 < 0
      then 1 else 0 := by
  simp only [worldStep, runQueues]
  simp [List.count_append, List.count_cons, count_endLevelCall_playMusic,
    count_endLevelCallFalse_checkLoseTimer, count_endLevelCallFalse_checkWinTimer,
    count_endLevelCall_map_runOneTime, count_endLevelCall_map_runRepeat,
    checkStopwatch_world, checkWinTimer_world, checkLoseTimer_world,
    playMusic_world, playMusic_score]

lemma count_endLevelCallTrue_worldStep (s : Stage) (e : Rat) :
    (worldStep s e).2.count (Event.endLevelCall true) =
      if s.score.winCountRemaining ≠ -100 ∧
          s.score.winCountRemaining - e / 1000 < 0
      then 1 else 0 := by
  simp only [worldStep, runQueues]
  simp [List.count_append, List.count_cons, count_endLevelCall_playMusic,
    count_endLevelCallTrue_checkLoseTimer, count_endLevelCallTrue_checkWinTimer,
    count_endLevelCall_map_runOneTime, count_endLevelCall_map_runRepeat,
    checkStopwatch_world, checkWinTimer_world, checkLoseTimer_world,
    playMusic_world, checkLoseTimer_score_win, playMusic_score]

lemma onScreenChange_fst (s : Stage) :
    (onScreenChange s).1 =
      { world := {}, overlay := s.overlay, gestureHudFirst := true,
        backgroundColor := 0xFFFFFF, welcomeSceneBuilder := false,
        winSceneBuilder := false, loseSceneBuilder := false,
        pauseSceneBuilder := false, score := {}, music := false,
        musicPlaying := false, projectilePool := false } := by
  cases hm : s.musicPlaying <;> simp [onScreenChange, stopMusic, hm, Score.reset]

lemma onScreenChange_snd (s : Stage) :
    (onScreenChange s).2 =
      (if s.musicPlaying then [Event.musicStop] else [])
        ++ [Event.clearLevelFacts, Event.newWorldScene, Event.newHudScene,
            Event.newBackgroundScene, Event.newForegroundScene] := by
  cases hm : s.musicPlaying <;> simp [onScreenChange, stopMusic, hm]

/-! Claim theorems. -/

/-- Claim C1, counterexample: the claim "no physics step or world drawing
occurs while the overlay is showing, including the render call in which
the overlay came into existence" is false for an overlay created
mid-render by `endLevel`.  With the lose countdown at 0.5s, a lose-scene
builder pending and a 600ms frame, the overlay comes into existence during
the render call (`newOverlay` is in the trace and the overlay is present
afterwards), yet the same call still steps the physics world and draws
the world and HUD. -/
theorem c1_counterexample :
    (render loseFiresStage 600).1.overlay = true ∧
    Event.newOverlay ∈ (render loseFiresStage 600).2 ∧
    Event.invokeBuilder SceneKind.lose ∈ (render loseFiresStage 600).2 ∧
    Event.advanceWorld (1 / 45) 8 3 ∈ (render loseFiresStage 600).2 ∧
    Event.renderWorld ∈ (render loseFiresStage 600).2 ∧
    Event.renderHud ∈ (render loseFiresStage 600).2 := by
  norm_num [render, consumeWelcome, consumePause, worldStep, playMusic,
    checkLoseTimer, checkWinTimer, checkStopwatch, runQueues, endLevel,
    loseFiresStage]

/-- Claim C1 (amended): whenever a transient overlay is present at the
start of a render call, or comes into existence at the top of the call via
the welcome- or pause-scene builder, render draws only the overlay and
returns: the trace ends with the overlay draw and contains no frame-colour
set, no physics step, no event-queue execution, no camera adjustment and
no background/world/foreground/HUD drawing, and neither the score timers
nor the world event queues change.  (An overlay created mid-render by
`endLevel` during the timer checks does not stop the remainder of that
same call; see the counterexample.) -/
theorem c1_overlay_supersedes (s : Stage) (e : Rat)
    (h : s.overlay = true ∨ s.welcomeSceneBuilder = true ∨ s.pauseSceneBuilder = true) :
    ((render s e).2.getLast? = some Event.renderOverlay) ∧
    (∀ x ∈ (render s e).2, x.isWorldActivity = false) ∧
    (render s e).1.score = s.score ∧
    (render s e).1.world = s.world := by
  cases ho : s.overlay <;> cases hw : s.welcomeSceneBuilder <;>
    cases hp : s.pauseSceneBuilder <;>
    simp_all [render, consumeWelcome, consumePause, Event.isWorldActivity]

/-- Claim C1 witness: the amended theorem applied to a stage that is
showing an overlay, with a 16ms frame. -/
theorem c1_overlay_supersedes_witness :
    ((render overlayStage 16).2.getLast? = some Event.renderOverlay) ∧
    (∀ x ∈ (render overlayStage 16).2, x.isWorldActivity = false) ∧
    (render overlayStage 16).1.score = overlayStage.score ∧
    (render overlayStage 16).1.world = overlayStage.world :=
  c1_overlay_supersedes overlayStage 16 (Or.inl rfl)

/-- Claim C2, counterexample: the claim "when both a welcome-scene builder
and a pause-scene builder are pending, only the welcome builder is
consumed and the pause-scene builder remains set for a later frame" is
false: the source uses two independent `if` statements, so one render call
consumes and clears both builders and also invokes the pause builder. -/
theorem c2_counterexample :
    (render bothBuildersStage 16).1.pauseSceneBuilder = false ∧
    Event.invokeBuilder SceneKind.pause ∈ (render bothBuildersStage 16).2 := by
  norm_num [render, consumeWelcome, consumePause, bothBuildersStage]

/-- Claim C2 (amended): when both a welcome-scene builder and a pause-scene
builder are pending at the start of a render call, both are consumed and
cleared in that call: a welcome overlay is constructed and its builder
invoked, then a pause overlay is constructed (replacing the welcome one)
and its builder invoked, and the overlay that is rendered is the pause
one. -/
theorem c2_both_builders_consumed (s : Stage) (e : Rat)
    (hw : s.welcomeSceneBuilder = true) (hp : s.pauseSceneBuilder = true) :
    render s e =
      ({ s with
          overlay := true,
          welcomeSceneBuilder := false,
          pauseSceneBuilder := false },
       [Event.newOverlay, Event.invokeBuilder SceneKind.welcome,
        Event.newOverlay, Event.invokeBuilder SceneKind.pause,
        Event.renderOverlay]) := by
  simp [render, consumeWelcome, consumePause, hw, hp]

/-- Claim C2 witness: the amended theorem applied to the stage with both
builders pending. -/
theorem c2_both_builders_consumed_witness :
    render bothBuildersStage 16 =
      ({ bothBuildersStage with
          overlay := true,
          welcomeSceneBuilder := false,
          pauseSceneBuilder := false },
       [Event.newOverlay, Event.invokeBuilder SceneKind.welcome,
        Event.newOverlay, Event.invokeBuilder SceneKind.pause,
        Event.renderOverlay]) :=
  c2_both_builders_consumed bothBuildersStage 16 rfl rfl

set_option maxHeartbeats 1000000 in
/-- Claim C3: in a render call that reaches the world-update path, a lose
countdown not at the sentinel -100 decreases by exactly elapsedTime/1000
and `endLevel(false)` is invoked exactly once if and only if the
decremented value is below zero; symmetrically for the win countdown with
`endLevel(true)`; a timer equal to -100 is left untouched. -/
theorem c3_score_timers (s : Stage) (e : Rat)
    (hw : s.welcomeSceneBuilder = false) (hp : s.pauseSceneBuilder = false)
    (ho : s.overlay = false) :
    ((render s e).1.score.loseCountDownRemaining =
      if s.score.loseCountDownRemaining = -100 then -100
      else s.score.loseCountDownRemaining - e / 1000) ∧
    ((render s e).2.count (Event.endLevelCall false) =
      if s.score.loseCountDownRemaining ≠ -100 ∧
          s.score.loseCountDownRemaining - e / 1000 < 0
      then 1 else 0) ∧
    ((render s e).1.score.winCountRemaining =
      if s.score.winCountRemaining = -100 then -100
      else s.score.winCountRemaining - e / 1000) ∧
    ((render s e).2.count (Event.endLevelCall true) =
      if s.score.winCountRemaining ≠ -100 ∧
          s.score.winCountRemaining - e / 1000 < 0
      then 1 else 0) := by
  rw [render_worldPath s e hw hp ho]
  exact ⟨worldStep_score_lose s e, count_endLevelCallFalse_worldStep s e,
    worldStep_score_win s e, count_endLevelCallTrue_worldStep s e⟩

/-- Claim C3 witness: with the lose countdown at 0.5s and a 600ms frame,
one render call leaves the timer at the negative value -1/10 and fires
`endLevel(false)` exactly once (and `endLevel(true)` never). -/
theorem c3_score_timers_witness :
    (render countdownStage 600).1.score.loseCountDownRemaining = -(1 / 10) ∧
    (render countdownStage 600).2.count (Event.endLevelCall false) = 1 ∧
    (render countdownStage 600).2.count (Event.endLevelCall true) = 0 := by
  have h := c3_score_timers countdownStage 600 rfl rfl rfl
  refine ⟨?_, ?_, ?_⟩
  · rw [h.1]; norm_num [countdownStage]
  · rw [h.2.1]; norm_num [countdownStage]
  · rw [h.2.2.2]; norm_num [countdownStage]

/-- Claim C4: while a transient overlay is active, each of tap, panStart,
panMove, panStop, touchDown and touchUp is delivered to the overlay and
never to the world or HUD; swipe, in every state, is delivered to the HUD
and only to the HUD. -/
theorem c4_overlay_gestures (s : Stage) (hov : s.overlay = true) :
    (∀ hc wc : Bool, tap s hc wc = [Event.gesture GTarget.overlay GKind.tap]) ∧
    panStart s = [Event.gesture GTarget.overlay GKind.panStart] ∧
    panMove s = [Event.gesture GTarget.overlay GKind.panMove] ∧
    panStop s = [Event.gesture GTarget.overlay GKind.panStop] ∧
    touchDown s = [Event.gesture GTarget.overlay GKind.touchDown] ∧
    touchUp s = [Event.gesture GTarget.overlay GKind.touchUp] ∧
    (∀ t : Stage, swipe t = [Event.gesture GTarget.hud GKind.swipe]) := by
  simp [tap, panStart, panMove, panStop, touchDown, touchUp, swipe, hov]

/-- Claim C4 witness: the theorem applied to a stage showing an overlay,
with each gesture instantiated. -/
theorem c4_overlay_gestures_witness :
    tap overlayStage true false = [Event.gesture GTarget.overlay GKind.tap] ∧
    panStart overlayStage = [Event.gesture GTarget.overlay GKind.panStart] ∧
    panMove overlayStage = [Event.gesture GTarget.overlay GKind.panMove] ∧
    panStop overlayStage = [Event.gesture GTarget.overlay GKind.panStop] ∧
    touchDown overlayStage = [Event.gesture GTarget.overlay GKind.touchDown] ∧
    touchUp overlayStage = [Event.gesture GTarget.overlay GKind.touchUp] ∧
    swipe plainStage = [Event.gesture GTarget.hud GKind.swipe] := by
  have h := c4_overlay_gestures overlayStage rfl
  exact ⟨h.1 true false, h.2.1, h.2.2.1, h.2.2.2.1, h.2.2.2.2.1,
    h.2.2.2.2.2.1, h.2.2.2.2.2.2 plainStage⟩

/-- Claim C5: a tap with no overlay active is routed by priority.  With
gestureHudFirst, the HUD handler is invoked first and the world handler is
invoked exactly once if and only if the HUD handler reports it did not
consume the tap; with gestureHudFirst false the roles are swapped. -/
theorem c5_tap_priority (s : Stage) (hov : s.overlay = false)
    (hc wc : Bool) :
    tap s hc wc =
      if s.gestureHudFirst then
        (if hc then [Event.gesture GTarget.hud GKind.tap]
         else [Event.gesture GTarget.hud GKind.tap,
               Event.gesture GTarget.world GKind.tap])
      else
        (if wc then [Event.gesture GTarget.world GKind.tap]
         else [Event.gesture GTarget.world GKind.tap,
               Event.gesture GTarget.hud GKind.tap]) := by
  simp [tap, hov]

/-- Claim C5 witness: on a default (HUD-first) stage with no overlay, when
the HUD handler does not consume the tap, the HUD is tried first and the
world handler is then invoked exactly once. -/
theorem c5_tap_priority_witness :
    tap plainStage false false =
      [Event.gesture GTarget.hud GKind.tap,
       Event.gesture GTarget.world GKind.tap] := by
  have h := c5_tap_priority plainStage rfl false false
  simpa [plainStage] using h

/-- Claim C6: in a render call on the world-update path, the trace is a
prefix free of queue/camera/draw events, followed by the one-time events
in insertion order, then the repeat events in insertion order, then camera
adjustment and the four draws; each one-time event pending at the start of
the call executes exactly as many times as it is queued; afterwards the
one-time queue is empty while the repeat queue is unchanged; and the next
render call executes no one-time event at all. -/
theorem c6_event_queues (s : Stage) (e e2 : Rat) (i : Nat)
    (hw : s.welcomeSceneBuilder = false) (hp : s.pauseSceneBuilder = false)
    (ho : s.overlay = false) :
    (∃ A, (render s e).2 =
        A ++ (s.world.oneTimeEvents.map Event.runOneTime
          ++ (s.world.repeatEvents.map Event.runRepeat
          ++ [Event.adjustCamera, Event.renderBackground, Event.renderWorld,
              Event.renderForeground, Event.renderHud])) ∧
      ∀ x ∈ A, x.isQueueOrLater = false) ∧
    ((render s e).2.count (Event.runOneTime i) = s.world.oneTimeEvents.count i) ∧
    (render s e).1.world.oneTimeEvents = [] ∧
    (render s e).1.world.repeatEvents = s.world.repeatEvents ∧
    ((render (render s e).1 e2).2.count (Event.runOneTime i) = 0) := by
  have hr := render_worldPath s e hw hp ho
  refine ⟨?_, ?_, ?_, ?_, ?_⟩
  · rw [hr]; exact worldStep_shape s e
  · rw [hr]; exact count_runOneTime_worldStep s e i
  · rw [hr, worldStep_world]
  · rw [hr, worldStep_world]
  · rw [hr]
    cases hov : (worldStep s e).1.overlay
    · rw [render_worldPath _ e2 (by rw [worldStep_welcome]; exact hw)
        (by rw [worldStep_pause]; exact hp) hov,
        count_runOneTime_worldStep, worldStep_world]
      rfl
    · rw [render_overlayPath _ e2 (by rw [worldStep_welcome]; exact hw)
        (by rw [worldStep_pause]; exact hp) hov]
      rfl

/-- Claim C6 witness: the theorem applied to a stage with one pending
one-time event (id 7) and one repeat event (id 3), over two 16ms frames. -/
theorem c6_event_queues_witness :
    (∃ A, (render queueStage 16).2 =
        A ++ (queueStage.world.oneTimeEvents.map Event.runOneTime
          ++ (queueStage.world.repeatEvents.map Event.runRepeat
          ++ [Event.adjustCamera, Event.renderBackground, Event.renderWorld,
              Event.renderForeground, Event.renderHud])) ∧
      ∀ x ∈ A, x.isQueueOrLater = false) ∧
    ((render queueStage 16).2.count (Event.runOneTime 7) =
      queueStage.world.oneTimeEvents.count 7) ∧
    (render queueStage 16).1.world.oneTimeEvents = [] ∧
    (render queueStage 16).1.world.repeatEvents = queueStage.world.repeatEvents ∧
    ((render (render queueStage 16).1 16).2.count (Event.runOneTime 7) = 0) :=
  c6_event_queues queueStage 16 16 7 rfl rfl rfl

/-- Claim C7: `endLevel(true)` with a win-scene builder pending constructs
exactly one new overlay, invokes the win builder on it, clears the builder
and shows the overlay; with no builder pending it constructs no overlay
and calls the sequencer's advanceLevel instead; a second `endLevel(true)`
right after the first always takes the advanceLevel path.  `endLevel(false)`
is symmetric with the lose-scene builder and repeatLevel. -/
theorem c7_endLevel_builders (s : Stage) :
    ((endLevel s true).2.count Event.newOverlay =
      if s.winSceneBuilder then 1 else 0) ∧
    ((endLevel s true).2.count (Event.invokeBuilder SceneKind.win) =
      if s.winSceneBuilder then 1 else 0) ∧
    ((endLevel s true).2.count Event.advanceLevel =
      if s.winSceneBuilder then 0 else 1) ∧
    (endLevel s true).1.winSceneBuilder = false ∧
    ((endLevel s true).1.overlay = if s.winSceneBuilder then true else s.overlay) ∧
    ((endLevel (endLevel s true).1 true).2 =
      [Event.endLevelCall true, Event.advanceLevel]) ∧
    ((endLevel s false).2.count Event.newOverlay =
      if s.loseSceneBuilder then 1 else 0) ∧
    ((endLevel s false).2.count (Event.invokeBuilder SceneKind.lose) =
      if s.loseSceneBuilder then 1 else 0) ∧
    ((endLevel s false).2.count Event.repeatLevel =
      if s.loseSceneBuilder then 0 else 1) ∧
    (endLevel s false).1.loseSceneBuilder = false ∧
    ((endLevel s false).1.overlay = if s.loseSceneBuilder then true else s.overlay) ∧
    ((endLevel (endLevel s false).1 false).2 =
      [Event.endLevelCall false, Event.repeatLevel]) := by
  cases hw : s.winSceneBuilder <;> cases hl : s.loseSceneBuilder <;>
    simp [endLevel, hw, hl, List.count_cons]

/-- Claim C8: after every `onScreenChange()` call, all per-level mutable
fields are at their defaults: music stopped (one stop call if it was
playing, none otherwise) and cleared, gestureHudFirst true, background
colour 0xFFFFFF, all four scene builders cleared, the Score reset to its
sentinel defaults (winCountRemaining = -100), level storage facts cleared,
and fresh WorldScene/HUD/background/foreground instances constructed; a
second call yields the very same state with no leaked state. -/
theorem c8_onScreenChange_resets (s : Stage) :
    (onScreenChange s).1.music = false ∧
    (onScreenChange s).1.musicPlaying = false ∧
    (onScreenChange s).1.projectilePool = false ∧
    (onScreenChange s).1.gestureHudFirst = true ∧
    (onScreenChange s).1.backgroundColor = 0xFFFFFF ∧
    (onScreenChange s).1.welcomeSceneBuilder = false ∧
    (onScreenChange s).1.winSceneBuilder = false ∧
    (onScreenChange s).1.loseSceneBuilder = false ∧
    (onScreenChange s).1.pauseSceneBuilder = false ∧
    (onScreenChange s).1.score = ({} : Score) ∧
    (onScreenChange s).1.score.winCountRemaining = -100 ∧
    (onScreenChange s).1.world = ({} : WorldScene) ∧
    ((onScreenChange s).2.count Event.musicStop =
      if s.musicPlaying then 1 else 0) ∧
    Event.clearLevelFacts ∈ (onScreenChange s).2 ∧
    Event.newWorldScene ∈ (onScreenChange s).2 ∧
    Event.newHudScene ∈ (onScreenChange s).2 ∧
    Event.newBackgroundScene ∈ (onScreenChange s).2 ∧
    Event.newForegroundScene ∈ (onScreenChange s).2 ∧
    (onScreenChange (onScreenChange s).1).1 = (onScreenChange s).1 := by
  refine ⟨?_, ?_, ?_, ?_, ?_, ?_, ?_, ?_, ?_, ?_, ?_, ?_, ?_, ?_, ?_, ?_,
    ?_, ?_, ?_⟩ <;>
    (simp [onScreenChange_fst, onScreenChange_snd, List.count_cons];
      try (cases s.musicPlaying <;> simp))

set_option maxHeartbeats 1000000 in
/-- Claim C9: on the world-update path, the physics world is advanced
exactly once, with the fixed timestep 1/45 and 8 velocity / 3 position
iterations (any other `advanceWorld` call occurs zero times), while the
score timers in the same call advance by the real elapsedTime/1000 when
not at the sentinel. -/
theorem c9_fixed_timestep (s : Stage) (e : Rat)
    (hw : s.welcomeSceneBuilder = false) (hp : s.pauseSceneBuilder = false)
    (ho : s.overlay = false) :
    (∀ dt : Rat, ∀ vi pi : Nat,
      (render s e).2.count (Event.advanceWorld dt vi pi) =
        if dt = 1 / 45 ∧ vi = 8 ∧ pi = 3 then 1 else 0) ∧
    ((render s e).1.score.loseCountDownRemaining =
      if s.score.loseCountDownRemaining = -100 then -100
      else s.score.loseCountDownRemaining - e / 1000) ∧
    ((render s e).1.score.winCountRemaining =
      if s.score.winCountRemaining = -100 then -100
      else s.score.winCountRemaining - e / 1000) ∧
    ((render s e).1.score.stopWatchProgress =
      if s.score.stopWatchProgress = -100 then -100
      else s.score.stopWatchProgress + e / 1000) := by
  constructor
  · rw [render_worldPath s e hw hp ho]
    intro dt vi pi
    simp only [worldStep, runQueues]
    simp [List.count_append, List.count_cons]
    split_ifs <;>
      simp_all [count_advanceWorld_playMusic, count_advanceWorld_checkLoseTimer,
        count_advanceWorld_checkWinTimer, count_advanceWorld_map_runOneTime,
        count_advanceWorld_map_runRepeat]
  · rw [render_worldPath s e hw hp ho]
    exact ⟨worldStep_score_lose s e, worldStep_score_win s e,
      worldStep_score_stop s e⟩

/-- Claim C9 witness: on a fresh stage with a 16ms frame, the physics step
with timestep 1/45 and iterations (8, 3) occurs exactly once. -/
theorem c9_fixed_timestep_witness :
    (render plainStage 16).2.count (Event.advanceWorld (1 / 45) 8 3) = 1 := by
  have h := (c9_fixed_timestep plainStage 16 rfl rfl rfl).1 (1 / 45) 8 3
  simpa using h

/-- Claim C10: a freshly constructed Goodie has score deltas exactly
[1, 0, 0, 0] and a null onHeroCollect callback; setScore(v1, v2, v3, v4)
replaces the deltas with exactly [v1, v2, v3, v4] for any signed numbers,
performing no validation and changing no other field. -/
theorem c10_goodie_score (w h : Rat) (img : String) (g : Goodie)
    (v1 v2 v3 v4 : Rat) :
    (mkGoodie w h img).score = [1, 0, 0, 0] ∧
    (mkGoodie w h img).onHeroCollect = none ∧
    (g.setScore v1 v2 v3 v4).score = [v1, v2, v3, v4] ∧
    (g.setScore v1 v2 v3 v4).onHeroCollect = g.onHeroCollect ∧
    (g.setScore v1 v2 v3 v4).imgName = g.imgName ∧
    (g.setScore v1 v2 v3 v4).width = g.width ∧
    (g.setScore v1 v2 v3 v4).height = g.height := by
  simp [mkGoodie, Goodie.setScore]

end JetLag
